import Mathlib

/-!
Verification of the msticpy LogAnalytics uploader (`LAUploader` in
`msticpy/data/uploaders/loganalytics_uploader.py`) and of the IntSights
threat-intelligence result parser (`IntSights.parse_results` in
`msticpy/context/tiproviders/intsights.py`), as a shallow embedding in Lean.

Records are modelled by the byte length of their JSON serialization; paths
and table names by Lean strings / character lists; the network by an oracle
assigning each successive POST attempt a response.
-/

namespace LAUpload

/-! ## Batching (`LAUploader.upload_df`)

The Python loop appends each row (stringified, as a dict) to `events` and
checks `sys.getsizeof(json.dumps(events)) > 26214400`; on overflow it posts
the accumulated `events` (including the row just appended) and resets
`events = []`; any non-empty residue is posted at end of source.

A record is modelled by the byte length of its own JSON serialization.
`json.dumps` of a list renders `"[" ++ ", ".join(items) ++ "]"` (2 bracket
bytes plus 2 separator bytes between adjacent items), and CPython's
`sys.getsizeof` of a compact ASCII `str` is its length plus 49 bytes of
object header. -/

/-- Byte length of `json.dumps(events)` for a list of records, each record
given as the length of its own serialization. -/
def jsonDumpsLen (events : List Nat) : Nat :=
  2 + events.foldl (· + ·) 0 + 2 * (events.length - 1)

/-- `sys.getsizeof` of a compact ASCII CPython string of `n` characters. -/
def getsizeofStr (n : Nat) : Nat := n + 49

/-- The overflow test of the upload loop:
`sys.getsizeof(json.dumps(events)) > 26214400`. -/
def overLimit (events : List Nat) : Bool :=
  decide (26214400 < getsizeofStr (jsonDumpsLen events))

/-- The accumulation loop of `upload_df`, with the current `events`
accumulator made explicit.  Returns the list of posted batches in POST
order (the residual flush included). -/
def uploadDfGo : List Nat → List Nat → List (List Nat)
  | [], events => if events.isEmpty then [] else [events]
  | r :: rest, events =>
    if overLimit (events ++ [r]) then (events ++ [r]) :: uploadDfGo rest []
    else uploadDfGo rest (events ++ [r])

/-- The sequence of batches `upload_df` posts for a given row sequence. -/
def uploadDfBatches (rows : List Nat) : List (List Nat) :=
  uploadDfGo rows []

/-! ## Signature construction (`LAUploader._build_signature`)

The cryptographic primitives (`base64.b64decode`, UTF-8 encoding,
`hmac.new(..., digestmod=sha256).digest()`, `base64.b64encode`) are taken
as parameters: the function under verification only assembles strings and
feeds them to those primitives.  Byte strings are modelled as `List Nat`. -/

/-- `LAUploader._build_signature`, parametrized by the crypto primitives. -/
def buildSignature (b64decode : String → List Nat)
    (utf8Encode : String → List Nat)
    (hmacSha256 : List Nat → List Nat → List Nat)
    (b64encode : List Nat → String)
    (workspace workspaceSecret : String)
    (date : String) (content_length : Nat)
    (method content_type resource : String) : String :=
  let x_headers := "x-ms-date:" ++ date
  let string_to_hash :=
    method ++ "\n" ++ toString content_length ++ "\n" ++ content_type
      ++ "\n" ++ x_headers ++ "\n" ++ resource
  let bytes_to_hash := utf8Encode string_to_hash
  let decoded_key := b64decode workspaceSecret
  let encoded_hash := b64encode (hmacSha256 decoded_key bytes_to_hash)
  "SharedKey " ++ workspace ++ ":" ++ encoded_hash

/-! ## POST semantics (`LAUploader._post_data`)

The network is modelled by the response a single `requests.post` call
produces: either `requests.ConnectionError` or a status code.  Both raise
sites construct a `MsticpyConnectionError(message, title=...)`. -/

/-- Outcome of the underlying `requests.post` call. -/
inductive PostResponse where
  | connFail
  | status (code : Nat)
deriving DecidableEq

/-- The exception `MsticpyConnectionError(*args, title=...)` as raised by
`_post_data`: a message and a title. -/
structure MsticpyConnectionError where
  message : String
  title : String
deriving DecidableEq

/-- Error handling of `_post_data` around one `requests.post` call:
a `requests.ConnectionError` becomes the "Unable to connect" error, a
status code outside 200..299 becomes the "Data Upload Failed" error with
the code interpolated into the message, anything else returns normally. -/
def postData : PostResponse → Except MsticpyConnectionError Unit
  | .connFail =>
    .error
      ⟨"Unable to connect to workspace, ensure your Workspace ID is correct.",
       "Unable to connect to Workspace"⟩
  | .status code =>
    if code < 200 ∨ code > 299 then
      .error
        ⟨"LogAnalytics data upload failed with code " ++ toString code
            ++ ".\n                Check Workspace ID and key",
         "Data Upload Failed"⟩
    else .ok ()

/-- Table-name sanitization in `_post_data`:
`re.sub("[^A-Za-z0-9_]+", "", table_name)` keeps exactly the ASCII
letters, digits and underscores. -/
def isAllowedChar (c : Char) : Bool :=
  (decide ('A' ≤ c) && decide (c ≤ 'Z'))
    || (decide ('a' ≤ c) && decide (c ≤ 'z'))
    || (decide ('0' ≤ c) && decide (c ≤ '9'))
    || decide (c = '_')

/-- The sanitized table name used as the `Log-Type` header. -/
def sanitizeTableName (s : String) : String :=
  ⟨s.data.filter isAllowedChar⟩

/-! ## Fail-fast runs (`upload_df` / `upload_folder`)

Successive POST attempts of a run are numbered; an oracle
`Nat → PostResponse` assigns each attempt its network outcome.  A run
returns the batches for which a POST was issued (the failing attempt
included) and the first error, if any; an uncaught exception in Python
aborts the surrounding loops, which is exactly the propagation modelled
here. -/

/-- Post each batch in turn, starting at attempt index `i`; stop at the
first raised `MsticpyConnectionError`. -/
def sendBatchesFrom (oracle : Nat → PostResponse) :
    Nat → List (List Nat) → List (List Nat) × Option MsticpyConnectionError
  | _, [] => ([], none)
  | i, b :: bs =>
    match postData (oracle i) with
    | .ok _ =>
      let p := sendBatchesFrom oracle (i + 1) bs
      (b :: p.1, p.2)
    | .error e => ([b], some e)

/-- One `upload_df` run: the batches produced by the accumulation loop are
posted in order under the oracle. -/
def runUploadDf (oracle : Nat → PostResponse) (rows : List Nat) :
    List (List Nat) × Option MsticpyConnectionError :=
  sendBatchesFrom oracle 0 (uploadDfBatches rows)

/-- One `upload_folder` run over the row sequences of its files, starting
at attempt index `i`: each file's rows go through `upload_df`; an error
raised there propagates and aborts the remaining files. -/
def runUploadFolder (oracle : Nat → PostResponse) :
    Nat → List (List Nat) → List (List Nat) × Option MsticpyConnectionError
  | _, [] => ([], none)
  | i, f :: fs =>
    match sendBatchesFrom oracle i (uploadDfBatches f) with
    | (sent, some e) => (sent, some e)
    | (sent, none) =>
      let q := runUploadFolder oracle (i + sent.length) fs
      (sent ++ q.1, q.2)

/-! ## Table-name derivation and file selection
(`upload_file` / `upload_folder`)

`str(path).split("\\")[-1].split(".")[0]` splits the path string at
backslashes, keeps the final segment, and truncates it at its first dot.
Python's `str.split` with a one-character separator is modelled on
character lists. -/

/-- Python `s.split(sep)` for a one-character separator: always returns a
non-empty list of (possibly empty) segments. -/
def pySplit (sep : Char) : List Char → List (List Char)
  | [] => [[]]
  | c :: cs =>
    if c = sep then [] :: pySplit sep cs
    else
      match pySplit sep cs with
      | [] => [[c]]
      | seg :: segs => (c :: seg) :: segs

/-- Table-name derivation from a file path:
`str(path).split("\\")[-1].split(".")[0]`. -/
def deriveTableName (path : String) : String :=
  ⟨((pySplit '\\' path.data).getLastD []
      |> pySplit '.').headD []⟩

/-- File selection of `upload_folder`: glob pattern `*.csv` (names ending
in `.csv`) when the delimiter is the default comma, `*` (all names)
otherwise. -/
def selectFiles (delim : String) (files : List String) : List String :=
  if delim ≠ "," then files
  else files.filter (fun f => List.isSuffixOf ".csv".data f.data)

/-- The (file, table-name) pairs `upload_folder` uploads: `t_name =
bool(table_name)` is computed once; when true the caller's name is reused
for every file, otherwise each file gets its own derived name. -/
def uploadFolderPlan (files : List String) (tableName : Option String)
    (delim : String) : List (String × String) :=
  let t_name : Bool := match tableName with
    | none => false
    | some s => s ≠ ""
  (selectFiles delim files).map fun f =>
    (f, if t_name then tableName.getD "" else deriveTableName f)

end LAUpload

namespace IntSights

/-! ## IntSights result parsing (`IntSights.parse_results`)

The response is a dict with keys `"Status"` and `"RawResult"`; `RawResult`
is either a dict (modelled by `RawResult` with one optional field per key
the code reads) or something else (modelled by `none`).  `datetime.strptime`
is taken as a parameter `String → Option PyDateTime`; calling it on the
`None` returned by `.get(key, None)` raises `TypeError`, and a string not
matching the format raises `ValueError`. -/

/-- The four-level severity enumeration `ResultSeverity` used by the
provider (values information / warning / high / unknown). -/
inductive ResultSeverity where
  | information
  | warning
  | high
  | unknown
deriving DecidableEq

/-- An opaque parsed `datetime.datetime` value. -/
structure PyDateTime where
  raw : String
deriving DecidableEq

/-- Exceptions that `datetime.strptime` can raise inside `parse_results`. -/
inductive PyError where
  | typeError
  | valueError
deriving DecidableEq

/-- The `RawResult` dict: one optional field per key `parse_results`
reads, `none` meaning the key is absent. -/
structure RawResult where
  whitelisted : Option Bool
  severity : Option String
  relatedThreatActors : Option String
  geolocation : Option String
  tags : Option (List String)
  SystemTags : Option (List String)
  relatedMalware : Option (List String)
  relatedCampaigns : Option (List String)
  score : Option Nat
  firstSeen : Option String
  lastSeen : Option String
  lastUpdateDate : Option String
deriving DecidableEq

/-- The response dict handed to `parse_results`. -/
structure Response where
  /-- Modelled from the spec: the result of `self._failed_response(response)`
  (defined in the `HttpTIProvider` base class, which is not part of the
  sources; the spec only says a failed lookup yields a negative hit). -/
  failed : Bool
  /-- `response["RawResult"]`; `none` models a value that is not a dict. -/
  rawResult : Option RawResult
  /-- `response["Status"]`. -/
  status : Nat
deriving DecidableEq

/-- The details mapping built for a positive hit (`result_dict`). -/
structure ResultDict where
  threat_actors : String
  geolocation : Option String
  response_code : Nat
  tags : List String
  malware : List String
  campaigns : List String
  score : Nat
  first_seen : PyDateTime
  last_seen : PyDateTime
  last_update : PyDateTime
deriving DecidableEq

/-- The third component of the returned triple: a plain message for
negative hits, the details dict for positive ones. -/
inductive Details where
  | msg (s : String)
  | dict (d : ResultDict)
deriving DecidableEq

/-- The nested conditional expression computing `severity` from the
reported severity string `sev`. -/
def severityOf (sev : String) : ResultSeverity :=
  if sev = "Low" then .information
  else if sev = "Medium" then .warning
  else if sev = "High" then .high
  else .unknown

/-- `dt.datetime.strptime(value, "%Y-%m-%dT%H:%M:%S.%fZ")` applied to the
result of `.get(key, None)`: `TypeError` on `None`, `ValueError` when the
string does not match the format. -/
def strptimeOrRaise (strptime : String → Option PyDateTime) :
    Option String → Except PyError PyDateTime
  | none => .error .typeError
  | some s =>
    match strptime s with
    | some d => .ok d
    | none => .error .valueError

/-- `IntSights.parse_results`, parametrized by the `strptime` parser. -/
def parseResults (strptime : String → Option PyDateTime) (r : Response) :
    Except PyError (Bool × ResultSeverity × Details) :=
  if r.failed then .ok (false, .information, .msg "Not found.")
  else
    match r.rawResult with
    | none => .ok (false, .information, .msg "Not found.")
    | some raw =>
      if raw.whitelisted.getD false then
        .ok (false, .information, .msg "Whitelisted.")
      else do
        let d1 ← strptimeOrRaise strptime raw.firstSeen
        let d2 ← strptimeOrRaise strptime raw.lastSeen
        let d3 ← strptimeOrRaise strptime raw.lastUpdateDate
        pure (true, severityOf (raw.severity.getD "Low"),
          .dict ⟨raw.relatedThreatActors.getD "", raw.geolocation, r.status,
            raw.tags.getD [] ++ raw.SystemTags.getD [],
            raw.relatedMalware.getD [], raw.relatedCampaigns.getD [],
            raw.score.getD 0, d1, d2, d3⟩)

/-- A non-failed response marked whitelisted, used as a concrete input. -/
def whitelistedResponse : Response :=
  ⟨false,
   some ⟨some true, some "Low", none, none, none, none, none, none, none,
     none, none, none⟩,
   200⟩

/-- A non-failed, non-whitelisted response with severity `"Medium"` and
all three date keys present, used as a concrete input. -/
def matchedResponse : Response :=
  ⟨false,
   some ⟨some false, some "Medium", some "APT99", some "ZZ", some ["a"],
     some ["b"], some ["mal"], some ["camp"], some 77,
     some "2021-01-01T00:00:00.000Z", some "2021-01-02T00:00:00.000Z",
     some "2021-01-03T00:00:00.000Z"⟩,
   200⟩

/-- A well-formed matched response whose `RawResult` dict lacks the
`firstSeen` key (everything else present), used for C10. -/
def missingDateResponse : Response :=
  ⟨false,
   some ⟨some false, some "High", some "actor", some "geo", some ["t1"],
     some ["t2"], some ["m"], some ["c"], some 42, none,
     some "2021-01-01T00:00:00.000Z", some "2021-01-02T00:00:00.000Z"⟩,
   200⟩

end IntSights

-- ## Helper lemmas

namespace LAUpload

example : uploadDfBatches [] = [] := by decide
example : uploadDfBatches [5, 7] = [[5, 7]] := by decide
example : uploadDfBatches [26214400, 3] = [[26214400], [3]] := by decide

example :
    uploadDfBatches [10485760, 10485760, 10485760] =
      [[10485760, 10485760, 10485760]] := by decide

theorem uploadDfGo_join (rest : List Nat) :
    ∀ events, (uploadDfGo rest events).flatten = events ++ rest := by
  induction rest with
  | nil =>
    intro events
    cases events <;> simp [uploadDfGo]
  | cons r rest ih =>
    intro events
    simp only [uploadDfGo]
    by_cases hov : overLimit (events ++ [r]) <;> simp [hov, ih]

theorem uploadDfGo_getD_overLimit (rest : List Nat) :
    ∀ events i, i + 1 < (uploadDfGo rest events).length →
      overLimit ((uploadDfGo rest events).getD i []) = true := by
  induction rest with
  | nil =>
    intro events i h
    cases events <;> simp [uploadDfGo] at h
  | cons r rest ih =>
    intro events i h
    simp only [uploadDfGo] at h ⊢
    by_cases hov : overLimit (events ++ [r])
    · rw [if_pos hov] at h ⊢
      cases i with
      | zero => simpa using hov
      | succ j =>
        rw [List.getD_cons_succ]
        refine ih [] j ?_
        simp only [List.length_cons] at h
        omega
    · rw [if_neg hov] at h ⊢
      exact ih (events ++ [r]) i h

/-- A prefix of `l ++ [r]` is either the whole list or a prefix of `l`. -/
theorem prefix_snoc {pre l : List Nat} {r : Nat} (h : pre <+: l ++ [r]) :
    pre = l ++ [r] ∨ pre <+: l := by
  by_cases hlen : pre.length ≤ l.length
  · exact Or.inr (List.prefix_of_prefix_length_le h (List.prefix_append l [r]) hlen)
  · refine Or.inl (List.IsPrefix.eq_of_length h ?_)
    have h1 := h.length_le
    simp only [List.length_append, List.length_singleton] at h1 ⊢
    omega

theorem uploadDfGo_proper_prefix (rest : List Nat) :
    ∀ events, (∀ pre, pre <+: events → overLimit pre = false) →
      ∀ b ∈ uploadDfGo rest events, ∀ pre, pre <+: b → pre ≠ b →
        overLimit pre = false := by
  induction rest with
  | nil =>
    intro events inv b hb pre hpre _
    cases events with
    | nil => simp [uploadDfGo] at hb
    | cons e es =>
      simp only [uploadDfGo, List.isEmpty_cons, if_neg] at hb
      simp only [Bool.false_eq_true, if_false, List.mem_singleton] at hb
      exact inv pre (hb ▸ hpre)
  | cons r rest ih =>
    intro events inv b hb pre hpre hne
    simp only [uploadDfGo] at hb
    by_cases hov : overLimit (events ++ [r])
    · rw [if_pos hov] at hb
      rcases List.mem_cons.mp hb with hb | hb
      · subst hb
        rcases prefix_snoc hpre with heq | hpre'
        · exact absurd heq hne
        · exact inv pre hpre'
      · refine ih [] ?_ b hb pre hpre hne
        intro p hp
        rw [List.prefix_nil.mp hp]
        decide
    · rw [if_neg hov] at hb
      refine ih (events ++ [r]) ?_ b hb pre hpre hne
      intro p hp
      rcases prefix_snoc hp with heq | hp'
      · rw [heq]
        exact Bool.not_eq_true _ ▸ hov
      · exact inv p hp'

theorem sendBatchesFrom_all_ok (oracle : Nat → PostResponse) :
    ∀ (bs : List (List Nat)) (i : Nat),
      (sendBatchesFrom oracle i bs).2 = none →
      (sendBatchesFrom oracle i bs).1 = bs := by
  intro bs
  induction bs with
  | nil => intro i _; rfl
  | cons b bs ih =>
    intro i h
    simp only [sendBatchesFrom] at h ⊢
    cases hp : postData (oracle i) with
    | ok u =>
      rw [hp] at h
      simp at h ⊢
      exact ih (i + 1) h
    | error e => rw [hp] at h; simp at h

theorem sendBatchesFrom_append_err (oracle : Nat → PostResponse) :
    ∀ (xs ys : List (List Nat)) (i : Nat) (e : MsticpyConnectionError),
      (sendBatchesFrom oracle i xs).2 = some e →
      sendBatchesFrom oracle i (xs ++ ys) = sendBatchesFrom oracle i xs := by
  intro xs
  induction xs with
  | nil => intro ys i e h; simp [sendBatchesFrom] at h
  | cons b xs ih =>
    intro ys i e h
    simp only [sendBatchesFrom, List.cons_append] at h ⊢
    cases hp : postData (oracle i) with
    | ok u =>
      rw [hp] at h
      simp at h ⊢
      rw [ih ys (i + 1) e h]
      exact ⟨rfl, rfl⟩
    | error e' => simp

theorem sendBatchesFrom_append_ok (oracle : Nat → PostResponse) :
    ∀ (xs ys : List (List Nat)) (i : Nat),
      (sendBatchesFrom oracle i xs).2 = none →
      sendBatchesFrom oracle i (xs ++ ys) =
        (xs ++ (sendBatchesFrom oracle (i + xs.length) ys).1,
          (sendBatchesFrom oracle (i + xs.length) ys).2) := by
  intro xs
  induction xs with
  | nil => intro ys i _; simp [sendBatchesFrom]
  | cons b xs ih =>
    intro ys i h
    simp only [sendBatchesFrom, List.cons_append, List.length_cons] at h ⊢
    cases hp : postData (oracle i) with
    | ok u =>
      rw [hp] at h
      simp at h ⊢
      rw [ih ys (i + 1) h,
        show i + (xs.length + 1) = i + 1 + xs.length by omega]
      exact ⟨rfl, rfl⟩
    | error e' => rw [hp] at h; simp at h

/-- `upload_folder` posts exactly the concatenation of its files' batch
sequences, stopping at the first error: running the nested loops equals
one flat `sendBatchesFrom` over the flattened batch sequence. -/
theorem runUploadFolder_eq_flat (oracle : Nat → PostResponse) :
    ∀ (files : List (List Nat)) (i : Nat),
      runUploadFolder oracle i files =
        sendBatchesFrom oracle i ((files.map uploadDfBatches).flatten) := by
  intro files
  induction files with
  | nil => intro i; rfl
  | cons f fs ih =>
    intro i
    simp only [runUploadFolder, List.map_cons, List.flatten_cons]
    rcases hsf : sendBatchesFrom oracle i (uploadDfBatches f) with ⟨sent, err⟩
    cases err with
    | some e =>
      rw [sendBatchesFrom_append_err oracle _ _ i e (by rw [hsf]), hsf]
    | none =>
      have hs : sent = uploadDfBatches f := by
        have := sendBatchesFrom_all_ok oracle (uploadDfBatches f) i (by rw [hsf])
        rwa [hsf] at this
      simp only
      subst hs
      rw [sendBatchesFrom_append_ok oracle _ _ i (by rw [hsf]),
        ih (i + (uploadDfBatches f).length)]

/-- The first failing POST attempt truncates the run: with attempts
`i, i+1, ...` succeeding up to the `j`-th relative attempt, which raises
`e`, exactly the first `j + 1` batches are posted and `e` is surfaced. -/
theorem sendBatchesFrom_take (oracle : Nat → PostResponse) :
    ∀ (bs : List (List Nat)) (i j : Nat) (e : MsticpyConnectionError),
      (∀ k, k < j → postData (oracle (i + k)) = .ok ()) →
      j < bs.length →
      postData (oracle (i + j)) = .error e →
      sendBatchesFrom oracle i bs = (bs.take (j + 1), some e) := by
  intro bs
  induction bs with
  | nil => intro i j e _ hlen _; simp at hlen
  | cons b bs ih =>
    intro i j e hok hlen herr
    simp only [sendBatchesFrom]
    cases j with
    | zero =>
      rw [show i + 0 = i by omega] at herr
      rw [herr]
      simp
    | succ j =>
      have h0 : postData (oracle i) = .ok () := by
        have := hok 0 (by omega)
        rwa [show i + 0 = i by omega] at this
      rw [h0]
      simp only
      have hrec : sendBatchesFrom oracle (i + 1) bs = (bs.take (j + 1), some e) := by
        refine ih (i + 1) j e ?_ (by simpa using hlen) ?_
        · intro k hk
          have := hok (k + 1) (by omega)
          rwa [show i + (k + 1) = i + 1 + k by omega] at this
        · rwa [show i + (j + 1) = i + 1 + j by omega] at herr
      rw [hrec]
      simp [List.take_succ_cons]

theorem pySplit_ne_nil (sep : Char) : ∀ cs, pySplit sep cs ≠ [] := by
  intro cs
  cases cs with
  | nil => simp [pySplit]
  | cons c cs =>
    simp only [pySplit]
    by_cases hc : c = sep
    · rw [if_pos hc]; simp
    · rw [if_neg hc]
      rcases h : pySplit sep cs with _ | ⟨seg, segs⟩ <;> simp

theorem getLastD_irrel {α : Type} (l : List α) (d₁ d₂ : α) (h : l ≠ []) :
    l.getLastD d₁ = l.getLastD d₂ := by
  cases l with
  | nil => exact absurd rfl h
  | cons a l => rw [List.getLastD_cons, List.getLastD_cons]

theorem pySplit_two_le (sep : Char) :
    ∀ xs ys, 2 ≤ (pySplit sep (xs ++ sep :: ys)).length := by
  intro xs
  induction xs with
  | nil =>
    intro ys
    have h1 := List.length_pos.mpr (pySplit_ne_nil sep ys)
    rw [List.nil_append,
      show pySplit sep (sep :: ys) = [] :: pySplit sep ys by simp [pySplit]]
    simp only [List.length_cons]
    omega
  | cons c xs ih =>
    intro ys
    simp only [List.cons_append, pySplit]
    by_cases hc : c = sep
    · rw [if_pos hc]
      have := List.length_pos.mpr (pySplit_ne_nil sep (xs ++ sep :: ys))
      simp
      omega
    · rw [if_neg hc]
      rcases h : pySplit sep (xs ++ sep :: ys) with _ | ⟨seg, segs⟩
      · exact absurd h (pySplit_ne_nil sep _)
      · have := ih ys
        rw [h] at this
        simp only [List.length_cons] at this ⊢
        omega

theorem pySplit_getLastD_append (sep : Char) :
    ∀ xs ys, (pySplit sep (xs ++ sep :: ys)).getLastD [] =
      (pySplit sep ys).getLastD [] := by
  intro xs
  induction xs with
  | nil =>
    intro ys
    rw [List.nil_append,
      show pySplit sep (sep :: ys) = [] :: pySplit sep ys by simp [pySplit]]
    rw [List.getLastD_cons]
  | cons c xs ih =>
    intro ys
    simp only [List.cons_append, pySplit]
    by_cases hc : c = sep
    · rw [if_pos hc, List.getLastD_cons]
      exact ih ys
    · rw [if_neg hc]
      rcases h : pySplit sep (xs ++ sep :: ys) with _ | ⟨seg, segs⟩
      · exact absurd h (pySplit_ne_nil sep _)
      · rcases segs with _ | ⟨s2, segs'⟩
        · exfalso
          have hlen := pySplit_two_le sep xs ys
          rw [h] at hlen
          simp at hlen
        · have hlast := ih ys
          rw [h, List.getLastD_cons, List.getLastD_cons] at hlast
          rw [List.getLastD_cons, List.getLastD_cons]
          exact hlast

end LAUpload

open LAUpload in
/-- C1 (counterexample to the claim as stated): 3 records of 10 MiB
serialized size each produce exactly ONE post containing all three records,
not two posts — two records total only about 20 MiB of payload, below the
26,214,400-byte ceiling, so no flush happens before the third append. -/
theorem C1_scenario_counterexample :
    uploadDfBatches [10485760, 10485760, 10485760] =
        [[10485760, 10485760, 10485760]] ∧
      (uploadDfBatches [10485760, 10485760, 10485760]).length ≠ 2 := by
  decide

open LAUpload in
/-- C1 (amended): after each append the serialized size of the batch is
compared against 26,214,400 bytes; on strict overflow the batch is flushed
as-is, the overflowing record included, and accumulation restarts empty.
Hence (a) every posted batch except the last strictly exceeds the ceiling,
(b) every proper prefix of a posted batch is within the ceiling (the flush
happens at the first overflowing append), and (c) 3 records of 10 MiB
serialized size each produce exactly 1 post containing all three records. -/
theorem C1_upload_df_batching_policy :
    (∀ rows i, i + 1 < (uploadDfBatches rows).length →
      overLimit ((uploadDfBatches rows).getD i []) = true) ∧
    (∀ rows, ∀ b ∈ uploadDfBatches rows, ∀ pre, pre <+: b → pre ≠ b →
      overLimit pre = false) ∧
    uploadDfBatches [10485760, 10485760, 10485760] =
      [[10485760, 10485760, 10485760]] := by
  refine ⟨fun rows i h => uploadDfGo_getD_overLimit rows [] i h,
    fun rows b hb => uploadDfGo_proper_prefix rows [] ?_ b hb, by decide⟩
  intro p hp
  rw [List.prefix_nil.mp hp]
  decide

open LAUpload in
/-- Witness for C1: concrete instantiations of both universally quantified
conjuncts — for rows `[26214400, 26214400]` the first posted batch exceeds
the ceiling, and the proper prefix `[3]` of the single batch posted for
`[3, 4]` is within the ceiling. -/
theorem C1_upload_df_batching_policy_witness :
    overLimit ((uploadDfBatches [26214400, 26214400]).getD 0 []) = true ∧
      overLimit [3] = false :=
  ⟨C1_upload_df_batching_policy.1 [26214400, 26214400] 0 (by decide),
   C1_upload_df_batching_policy.2.1 [3, 4] [3, 4] (by decide) [3] (by decide)
     (by decide)⟩

open LAUpload in
/-- C2: the concatenation, in post order, of the records contained in all
flushed batches (residual flush included) equals the input record sequence,
and an empty input produces zero posts. -/
theorem C2_upload_df_preserves_records (rows : List Nat) :
    (uploadDfBatches rows).flatten = rows ∧ uploadDfBatches [] = [] :=
  ⟨by simpa using uploadDfGo_join rows [], by decide⟩

open LAUpload in
/-- C3: `_build_signature` returns `"SharedKey " ++ workspaceId ++ ":" ++
base64(HMAC-SHA256(base64decode(secret), canonicalString))` where the
canonical string is the newline-join, without trailing newline, of
`method`, `str(contentLength)`, `contentType`, `"x-ms-date:" ++ date`,
`resource`, in exactly that order; purity and determinism are inherent in
the definition being a function of its arguments alone. -/
theorem C3_build_signature_format (b64decode : String → List Nat)
    (utf8Encode : String → List Nat)
    (hmacSha256 : List Nat → List Nat → List Nat)
    (b64encode : List Nat → String)
    (workspace secret date : String) (contentLength : Nat)
    (method contentType resource : String) :
    buildSignature b64decode utf8Encode hmacSha256 b64encode workspace
        secret date contentLength method contentType resource =
      "SharedKey " ++ workspace ++ ":"
        ++ b64encode (hmacSha256 (b64decode secret)
          (utf8Encode (String.intercalate "\n"
            [method, toString contentLength, contentType,
              "x-ms-date:" ++ date, resource]))) := by
  simp [buildSignature, String.intercalate, String.intercalate.go,
    String.append_assoc]

open LAUpload in
/-- C4: `_post_data` raises the connection-failure
`MsticpyConnectionError` exactly when `requests.post` raises
`requests.ConnectionError`; it raises the ingestion
`MsticpyConnectionError` carrying the status code exactly when the status
code is below 200 or above 299 (every status in 200..299 succeeds); the
two errors are distinguishable (their titles differ). -/
theorem C4_post_data_error_semantics :
    (∀ code, 200 ≤ code → code ≤ 299 → postData (.status code) = .ok ()) ∧
    (∀ code, code < 200 ∨ 299 < code →
      postData (.status code) =
        .error ⟨"LogAnalytics data upload failed with code "
            ++ toString code ++ ".\n                Check Workspace ID and key",
          "Data Upload Failed"⟩) ∧
    postData .connFail =
      .error
        ⟨"Unable to connect to workspace, ensure your Workspace ID is correct.",
          "Unable to connect to Workspace"⟩ ∧
    (∀ code e e', postData .connFail = .error e →
      postData (.status code) = .error e' → e ≠ e') := by
  refine ⟨?_, ?_, rfl, ?_⟩
  · intro code h1 h2
    simp only [postData]
    rw [if_neg (by omega)]
  · intro code h
    simp only [postData]
    rw [if_pos (by omega)]
  · intro code e e' he he'
    simp only [postData] at he he'
    by_cases hc : code < 200 ∨ code > 299
    · rw [if_pos hc] at he'
      simp only [Except.error.injEq] at he he'
      rw [← he, ← he']
      intro hcontra
      have := congrArg MsticpyConnectionError.title hcontra
      simp at this
    · rw [if_neg hc] at he'
      exact absurd he' (by simp)

open LAUpload in
/-- Witness for C4: status 250 succeeds, status 403 raises the ingestion
error carrying 403, and that error differs from the connection error. -/
theorem C4_post_data_error_semantics_witness :
    postData (.status 250) = .ok () ∧
      postData (.status 403) =
        .error ⟨"LogAnalytics data upload failed with code "
            ++ toString 403 ++ ".\n                Check Workspace ID and key",
          "Data Upload Failed"⟩ ∧
      (⟨"Unable to connect to workspace, ensure your Workspace ID is correct.",
          "Unable to connect to Workspace"⟩ : MsticpyConnectionError) ≠
        ⟨"LogAnalytics data upload failed with code "
            ++ toString 403 ++ ".\n                Check Workspace ID and key",
          "Data Upload Failed"⟩ :=
  ⟨C4_post_data_error_semantics.1 250 (by decide) (by decide),
   C4_post_data_error_semantics.2.1 403 (by decide),
   C4_post_data_error_semantics.2.2.2 403 _ _ rfl
     (C4_post_data_error_semantics.2.1 403 (by decide))⟩

open LAUpload in
/-- C5: fail-fast propagation — if the POST attempts before attempt `j`
succeed and attempt `j` raises, then a run of `upload_df` posts exactly
the first `j + 1` of its batches and a run of `upload_folder` posts
exactly the first `j + 1` batches of the concatenation of its files'
batch sequences: no further POST is issued for the failing unit nor for
any later unit, and the error is surfaced. -/
theorem C5_fail_fast (oracle : Nat → PostResponse) (j : Nat)
    (e : MsticpyConnectionError)
    (hok : ∀ k, k < j → postData (oracle k) = .ok ())
    (herr : postData (oracle j) = .error e) :
    (∀ rows, j < (uploadDfBatches rows).length →
      runUploadDf oracle rows = ((uploadDfBatches rows).take (j + 1), some e)) ∧
    (∀ files, j < ((files.map uploadDfBatches).flatten).length →
      runUploadFolder oracle 0 files =
        (((files.map uploadDfBatches).flatten).take (j + 1), some e)) := by
  constructor
  · intro rows hlen
    refine sendBatchesFrom_take oracle (uploadDfBatches rows) 0 j e ?_ hlen ?_
    · intro k hk
      simpa using hok k hk
    · simpa using herr
  · intro files hlen
    rw [runUploadFolder_eq_flat]
    refine sendBatchesFrom_take oracle _ 0 j e ?_ hlen ?_
    · intro k hk
      simpa using hok k hk
    · simpa using herr

open LAUpload in
/-- Witness for C5: with attempt 0 answered 200 and every later attempt
answered 403, a folder of two files whose batches are
`[[26214400], [26214400]]` and `[[5]]` posts exactly the first two
batches — the second batch of the first file fails with 403 and the
remaining batch of the first file's unit and the whole second unit are
never posted. -/
theorem C5_fail_fast_witness :
    runUploadFolder (fun k => if k = 0 then .status 200 else .status 403) 0
        [[26214400, 26214400], [5]] =
      ([[26214400], [26214400]],
        some ⟨"LogAnalytics data upload failed with code "
            ++ toString 403 ++ ".\n                Check Workspace ID and key",
          "Data Upload Failed"⟩) := by
  have h :=
    (C5_fail_fast (fun k => if k = 0 then .status 200 else .status 403) 1
      ⟨"LogAnalytics data upload failed with code "
          ++ toString 403 ++ ".\n                Check Workspace ID and key",
        "Data Upload Failed"⟩
      (fun k hk => by
        have hk0 : k = 0 := by omega
        subst hk0
        rfl)
      rfl).2 [[26214400, 26214400], [5]] (by decide)
  exact h.trans (by decide)

open LAUpload in
/-- C6: the sanitization `re.sub("[^A-Za-z0-9_]+", "", name)` applied to
the table name before use as the `Log-Type` header removes exactly the
characters that are not ASCII letters, digits or underscores (the kept
characters form a subsequence, and per-character counts are preserved for
allowed characters and zero otherwise), is idempotent, and maps
`"My-Table!1"` to `"MyTable1"`. -/
theorem C6_sanitize_table_name :
    (∀ s, sanitizeTableName (sanitizeTableName s) = sanitizeTableName s) ∧
    sanitizeTableName "My-Table!1" = "MyTable1" ∧
    (∀ s, (sanitizeTableName s).data.Sublist s.data) ∧
    (∀ s c, (sanitizeTableName s).data.count c =
      if isAllowedChar c then s.data.count c else 0) := by
  refine ⟨?_, by decide, ?_, ?_⟩
  · intro s
    show String.mk (((s.data.filter isAllowedChar)).filter isAllowedChar) =
      String.mk (s.data.filter isAllowedChar)
    rw [List.filter_filter]
    simp
  · intro s
    exact List.filter_sublist s.data
  · intro s c
    by_cases h : isAllowedChar c
    · rw [if_pos h]
      exact List.count_filter h
    · rw [if_neg h]
      refine List.count_eq_zero.mpr ?_
      intro hmem
      exact h (List.of_mem_filter hmem)

open LAUpload in
/-- C7 (counterexample to the claim as stated): the derivation only splits
on backslashes, so the forward-slash path `data/hosts.csv` derives
`data/hosts`, not `hosts` — the directory prefix is not stripped for that
path separator. -/
theorem C7_counterexample :
    deriveTableName "data/hosts.csv" = "data/hosts" ∧
      deriveTableName "data/hosts.csv" ≠ "hosts" := by
  decide

open LAUpload in
/-- C7 (amended): when no table name is supplied, `upload_file` derives
the table name as `str(path).split("\\")[-1].split(".")[0]`: the final
BACKSLASH-separated segment of the path, truncated at its first dot.
`hosts.csv` derives `hosts` under any backslash-joined directory prefix
(and for the bare file name), but other separators are not stripped. -/
theorem C7_table_name_derivation :
    (∀ pre : List Char,
      deriveTableName ⟨pre ++ '\\' :: "hosts.csv".data⟩ = "hosts") ∧
      deriveTableName "hosts.csv" = "hosts" ∧
      deriveTableName "C:\\logs\\hosts.csv" = "hosts" := by
  refine ⟨?_, by decide, by decide⟩
  intro pre
  show String.mk ((pySplit '.'
      ((pySplit '\\' (pre ++ '\\' :: "hosts.csv".data)).getLastD [])).headD [])
    = "hosts"
  rw [pySplit_getLastD_append]
  decide

open LAUpload in
/-- C8: with the default comma delimiter `upload_folder` selects exactly
the files matching `*.csv` (names ending in `.csv`), with any other
delimiter it selects all files; a caller-supplied (non-empty) table name
is reused for every selected file, and with no table name each file is
uploaded under its own derived name. -/
theorem C8_upload_folder_selection_naming (files : List String)
    (t : Option String) (delim : String) :
    (delim = "," →
      (uploadFolderPlan files t delim).map Prod.fst =
        files.filter (fun f => List.isSuffixOf ".csv".data f.data)) ∧
    (delim ≠ "," → (uploadFolderPlan files t delim).map Prod.fst = files) ∧
    (∀ s, t = some s → s ≠ "" →
      ∀ p ∈ uploadFolderPlan files t delim, p.2 = s) ∧
    (t = none →
      ∀ p ∈ uploadFolderPlan files t delim, p.2 = deriveTableName p.1) := by
  refine ⟨?_, ?_, ?_, ?_⟩
  · intro hd
    simp [uploadFolderPlan, selectFiles, hd, List.map_map, Function.comp_def]
  · intro hd
    simp [uploadFolderPlan, selectFiles, hd, List.map_map, Function.comp_def]
  · intro s hs hne p hp
    subst hs
    simp only [uploadFolderPlan, List.mem_map] at hp
    obtain ⟨f, _, hpf⟩ := hp
    rw [← hpf]
    simp [hne]
  · intro ht p hp
    subst ht
    simp only [uploadFolderPlan, List.mem_map] at hp
    obtain ⟨f, _, hpf⟩ := hp
    rw [← hpf]
    simp

open LAUpload in
/-- Witness for C8: a comma-delimited folder of `["a.csv", "b.txt"]` with
caller name `"AllLogs"` selects only `a.csv` and uploads it under
`AllLogs`; a semicolon-delimited folder of `["x.json"]` with no name
selects `x.json` and uploads it under its derived name. -/
theorem C8_upload_folder_selection_naming_witness :
    (uploadFolderPlan ["a.csv", "b.txt"] (some "AllLogs") ",").map Prod.fst =
        ["a.csv"] ∧
      (("a.csv", "AllLogs") : String × String).2 = "AllLogs" ∧
      (uploadFolderPlan ["x.json"] none ";").map Prod.fst = ["x.json"] ∧
      (("x.json", "x") : String × String).2 = deriveTableName "x.json" :=
  ⟨((C8_upload_folder_selection_naming ["a.csv", "b.txt"] (some "AllLogs")
      ",").1 rfl).trans (by decide),
   (C8_upload_folder_selection_naming ["a.csv", "b.txt"] (some "AllLogs")
      ",").2.2.1 "AllLogs" rfl (by decide) ("a.csv", "AllLogs") (by decide),
   (C8_upload_folder_selection_naming ["x.json"] none ";").2.1 (by decide),
   (C8_upload_folder_selection_naming ["x.json"] none ";").2.2.2 rfl
     ("x.json", "x") (by decide)⟩

open IntSights in
/-- C9: `parse_results` returns `(False, information, "Not found.")` for a
failed or non-dict response, `(False, information, "Whitelisted.")` for a
whitelisted one, and for a successfully parsed, non-whitelisted match
returns `(True, severity, details)` where the reported severity string is
mapped `"Low" ↦ information`, `"Medium" ↦ warning`, `"High" ↦ high`, and
anything else `↦ unknown`. -/
theorem C9_parse_results (strptime : String → Option PyDateTime)
    (r : Response) :
    (r.failed = true →
      parseResults strptime r = .ok (false, .information, .msg "Not found.")) ∧
    (r.rawResult = none →
      parseResults strptime r = .ok (false, .information, .msg "Not found.")) ∧
    (∀ raw, r.failed = false → r.rawResult = some raw →
      raw.whitelisted.getD false = true →
      parseResults strptime r =
        .ok (false, .information, .msg "Whitelisted.")) ∧
    (∀ raw d1 d2 d3, r.failed = false → r.rawResult = some raw →
      raw.whitelisted.getD false = false →
      strptimeOrRaise strptime raw.firstSeen = .ok d1 →
      strptimeOrRaise strptime raw.lastSeen = .ok d2 →
      strptimeOrRaise strptime raw.lastUpdateDate = .ok d3 →
      ∃ det : ResultDict,
        parseResults strptime r =
          .ok (true, severityOf (raw.severity.getD "Low"), .dict det)) ∧
    (severityOf "Low" = .information ∧ severityOf "Medium" = .warning ∧
      severityOf "High" = .high ∧
      ∀ s, s ≠ "Low" → s ≠ "Medium" → s ≠ "High" →
        severityOf s = .unknown) := by
  refine ⟨?_, ?_, ?_, ?_, by decide, by decide, by decide, ?_⟩
  · intro h
    simp [parseResults, h]
  · intro h
    simp [parseResults, h]
  · intro raw hf hraw hw
    simp [parseResults, hf, hraw, hw]
  · intro raw d1 d2 d3 hf hraw hw hd1 hd2 hd3
    refine ⟨⟨raw.relatedThreatActors.getD "", raw.geolocation, r.status,
      raw.tags.getD [] ++ raw.SystemTags.getD [],
      raw.relatedMalware.getD [], raw.relatedCampaigns.getD [],
      raw.score.getD 0, d1, d2, d3⟩, ?_⟩
    simp [parseResults, hf, hraw, hw, hd1, hd2, hd3, Bind.bind, Except.bind,
      Pure.pure, Except.pure]
  · intro s h1 h2 h3
    simp [severityOf, h1, h2, h3]

open IntSights in
/-- Witness for C9: concrete responses exercising each case — a failed
lookup, a whitelisted match, and a full match whose reported severity
`"Medium"` maps to `warning`; `"Critical"` is not one of the three known
strings and maps to `unknown`. -/
theorem C9_parse_results_witness :
    parseResults (fun s => some ⟨s⟩) ⟨true, none, 404⟩ =
        .ok (false, .information, .msg "Not found.") ∧
      parseResults (fun s => some ⟨s⟩) whitelistedResponse =
        .ok (false, .information, .msg "Whitelisted.") ∧
      (∃ det, parseResults (fun s => some ⟨s⟩) matchedResponse =
        .ok (true, .warning, .dict det)) ∧
      severityOf "Critical" = .unknown := by
  refine ⟨(C9_parse_results (fun s => some ⟨s⟩) ⟨true, none, 404⟩).1 rfl,
    (C9_parse_results (fun s => some ⟨s⟩) whitelistedResponse).2.2.1
      ⟨some true, some "Low", none, none, none, none, none, none, none,
        none, none, none⟩ rfl rfl rfl,
    ?_,
    (C9_parse_results (fun s => some ⟨s⟩)
        ⟨true, none, 404⟩).2.2.2.2.2.2.2 "Critical"
      (by decide) (by decide) (by decide)⟩
  obtain ⟨det, hdet⟩ :=
    (C9_parse_results (fun s => some ⟨s⟩) matchedResponse).2.2.2.1
      ⟨some false, some "Medium", some "APT99", some "ZZ", some ["a"],
        some ["b"], some ["mal"], some ["camp"], some 77,
        some "2021-01-01T00:00:00.000Z", some "2021-01-02T00:00:00.000Z",
        some "2021-01-03T00:00:00.000Z"⟩
      ⟨"2021-01-01T00:00:00.000Z"⟩ ⟨"2021-01-02T00:00:00.000Z"⟩
      ⟨"2021-01-03T00:00:00.000Z"⟩ rfl rfl rfl rfl rfl rfl
  rw [show severityOf ((some "Medium").getD "Low") = ResultSeverity.warning
    by decide] at hdet
  exact ⟨det, hdet⟩

open IntSights in
/-- C10: there is a non-failed response whose `RawResult` is a dict, not
whitelisted, with the `firstSeen` key missing: `parse_results` then
applies `strptime` to `None` and raises `TypeError` (modelled as
`.error .typeError`) instead of returning a classification triple,
whatever the date parser does on strings. -/
theorem C10_missing_date_key_raises (strptime : String → Option PyDateTime) :
    missingDateResponse.failed = false ∧
      missingDateResponse.rawResult ≠ none ∧
      (missingDateResponse.rawResult.map fun raw => raw.whitelisted.getD false)
          = some false ∧
      (missingDateResponse.rawResult.map RawResult.firstSeen) = some none ∧
      parseResults strptime missingDateResponse = .error .typeError := by
  refine ⟨rfl, by simp [missingDateResponse], rfl, rfl, rfl⟩
